import Mathlib

/-!
Verification of the recording-coordination core of the obsidian-operator plugin.

The embedding covers:
* `GlobalRecordingState` (the "Gate", src/services/GlobalRecordingState.ts): a
  process-wide mutual-exclusion coordinator with an observer list.
* `LocalRecordingState` (the "Session Timer", services/LocalRecordingState.ts):
  a per-instance elapsed-seconds counter with a mock sample buffer, a repeating
  one-second interval, and its own observer list.

Modelling conventions:
* Component instances (JS object identities used as gate tokens) are `Nat`.
* Listener callbacks are identified by `Nat` ids; a JS `Set` of callbacks is a
  duplicate-free `List Nat` in insertion order (`add` appends when absent,
  `delete` erases).
* Every mutating method returns, next to the updated state, the list of
  synchronous listener invocations it performed, as `(listener id, payload)`
  pairs in iteration order, so notification counts are part of the semantics.
* `Math.floor(Math.random() * 100)` always yields an integer in `[0, 100)`;
  the random source is modelled by letting each interval tick carry an
  arbitrary `Fin 100`.
* JS `Number.prototype.toString` on the non-negative integers used here is
  decimal rendering, embedded as the executable `natToString`;
  `String.prototype.padStart(2, "0")` is `padStart`, `Array.prototype.join`
  is `joinSep`.
-/

namespace ObsidianOperator

/-- Embedding of the `RecordingState` union type from src/types/index.ts:
`"idle" | "recording" | "stopping" | "error"`. -/
inductive RecordingState where
  | idle
  | recording
  | stopping
  | error
deriving DecidableEq

/-- Payload passed to Gate listeners by `notifyListeners`. -/
structure GlobalStateInfo where
  isRecording : Bool
  recordingInstance : Option Nat
  state : RecordingState
deriving DecidableEq

/-- State of the Gate (`GlobalRecordingState`): the recording owner token,
the state-machine phase, and the subscribed listeners. -/
structure GlobalRecordingState where
  recordingInstance : Option Nat
  currentState : RecordingState
  listeners : List Nat
deriving DecidableEq

namespace GlobalRecordingState

/-- Field initializers: `recordingInstance = null`, `currentState = "idle"`,
empty listener set. -/
def init : GlobalRecordingState := ⟨none, .idle, []⟩

/-- The snapshot object built by `notifyListeners`. -/
def stateInfo (g : GlobalRecordingState) : GlobalStateInfo :=
  ⟨g.recordingInstance.isSome, g.recordingInstance, g.currentState⟩

/-- `notifyListeners`: invoke every listener once, in order, with the
current snapshot. -/
def notifyLog (g : GlobalRecordingState) : List (Nat × GlobalStateInfo) :=
  g.listeners.map fun l => (l, g.stateInfo)

/-- `tryStartRecording(instance)`: reject when an owner exists, otherwise
record the owner, move to `"recording"` and notify. Returns
(result, new state, listener invocations). -/
def tryStartRecording (g : GlobalRecordingState) (inst : Nat) :
    Bool × GlobalRecordingState × List (Nat × GlobalStateInfo) :=
  match g.recordingInstance with
  | some _ => (false, g, [])
  | none =>
      let g' : GlobalRecordingState :=
        { g with recordingInstance := some inst, currentState := .recording }
      (true, g', g'.notifyLog)

/-- `stopRecording(instance)`: clear the owner, move to `"idle"` and notify,
but only when `instance` is the current owner; otherwise silently ignore. -/
def stopRecording (g : GlobalRecordingState) (inst : Nat) :
    GlobalRecordingState × List (Nat × GlobalStateInfo) :=
  if g.recordingInstance = some inst then
    let g' : GlobalRecordingState :=
      { g with recordingInstance := none, currentState := .idle }
    (g', g'.notifyLog)
  else (g, [])

/-- `getCurrentState()`. -/
def getCurrentState (g : GlobalRecordingState) : RecordingState :=
  g.currentState

/-- `isRecording()`: `recordingInstance !== null`. -/
def isRecording (g : GlobalRecordingState) : Bool :=
  g.recordingInstance.isSome

/-- `isRecordingInstance(instance)`. -/
def isRecordingInstance (g : GlobalRecordingState) (inst : Nat) : Bool :=
  g.recordingInstance = some inst

/-- `subscribe(listener)`: `Set.add` (no-op when already present), with no
notification. The returned unsubscribe closure is modelled by
`unsubscribe`. -/
def subscribe (g : GlobalRecordingState) (l : Nat) :
    GlobalRecordingState × List (Nat × GlobalStateInfo) :=
  ({ g with listeners := if l ∈ g.listeners then g.listeners else g.listeners ++ [l] }, [])

/-- The unsubscribe closure returned by `subscribe`: `Set.delete`, a no-op
when the listener is absent. -/
def unsubscribe (g : GlobalRecordingState) (l : Nat) :
    GlobalRecordingState × List (Nat × GlobalStateInfo) :=
  ({ g with listeners := g.listeners.erase l }, [])

/-- `destroy()`: clear the owner, return to `"idle"`, drop all listeners;
no notification is sent. -/
def destroy (_g : GlobalRecordingState) :
    GlobalRecordingState × List (Nat × GlobalStateInfo) :=
  (⟨none, .idle, []⟩, [])

end GlobalRecordingState

/-- The public operations a caller can perform on a Gate instance. -/
inductive GateEvent where
  | tryAcquire (t : Nat)
  | release (t : Nat)
  | subscribe (l : Nat)
  | unsubscribe (l : Nat)
  | shutdown
deriving DecidableEq

/-- One Gate call: the resulting state together with the listener
invocations it performed. -/
def gateStep (g : GlobalRecordingState) :
    GateEvent → GlobalRecordingState × List (Nat × GlobalStateInfo)
  | .tryAcquire t => (g.tryStartRecording t).2
  | .release t => g.stopRecording t
  | .subscribe l => g.subscribe l
  | .unsubscribe l => g.unsubscribe l
  | .shutdown => g.destroy

/-- The Gate state reached from construction by a sequence of calls. -/
def runGate (evs : List GateEvent) : GlobalRecordingState :=
  evs.foldl (fun g e => (gateStep g e).1) GlobalRecordingState.init

/-- Results of a sequence of consecutive `tryStartRecording` calls with no
intervening release. -/
def acquireSeq (g : GlobalRecordingState) : List Nat → List Bool
  | [] => []
  | t :: ts =>
      (g.tryStartRecording t).1 :: acquireSeq (g.tryStartRecording t).2.1 ts

/-- Decimal digit character, for digit values `0..9` (ASCII `48 + n`). -/
def digitChar (n : Nat) : Char := Char.ofNat (48 + n)

/-- Fuel-driven decimal rendering: least-significant digit last. -/
def natToStringAux : Nat → Nat → String
  | 0, _ => ""
  | fuel + 1, n =>
      if n < 10 then String.mk [digitChar n]
      else natToStringAux fuel (n / 10) ++ String.mk [digitChar (n % 10)]

/-- Embedding of `Number.prototype.toString()` on the non-negative integers
produced by the timer: usual base-10 rendering (`n + 1` fuel always
suffices, since a number has at most `n + 1` decimal digits). -/
def natToString (n : Nat) : String := natToStringAux (n + 1) n

/-- Embedding of `String.prototype.padStart(len, c)` for a one-character pad
string: prepend copies of `c` until the length is at least `len`. -/
def padStart (s : String) (len : Nat) (c : Char) : String :=
  String.mk (List.replicate (len - s.length) c) ++ s

/-- Embedding of `Array.prototype.join(sep)` on an array of strings. -/
def joinSep (sep : String) : List String → String
  | [] => ""
  | [x] => x
  | x :: xs => x ++ sep ++ joinSep sep xs

/-- `formatDuration()`: minutes by integer division, seconds by remainder,
each rendered in decimal and padded with `padStart(2, "0")`, joined by a
colon. -/
def formatDuration (elapsedSeconds : Nat) : String :=
  padStart (natToString (elapsedSeconds / 60)) 2 '0' ++ ":" ++
    padStart (natToString (elapsedSeconds % 60)) 2 '0'

/-- `formatRandomNumbers()`: empty string for an empty buffer, otherwise
each number rendered with a literal `"..."` suffix and joined by single
spaces. -/
def formatRandomNumbers (ns : List Nat) : String :=
  if ns.isEmpty then ""
  else joinSep " " (ns.map fun n => natToString n ++ "...")

/-- Snapshot object (`LocalStateUpdate`) passed to Session Timer listeners
and returned by `getState`. -/
structure LocalStateUpdate where
  isRecording : Bool
  elapsedSeconds : Nat
  randomNumbers : List Nat
  formattedDuration : String
  formattedRandoms : String
deriving DecidableEq

/-- State of a Session Timer (`LocalRecordingState`). `intervalActive`
models `intervalId !== null`: whether the repeating 1-second interval is
currently scheduled. -/
structure LocalRecordingState where
  instanceId : String
  isRecording : Bool
  elapsedSeconds : Nat
  randomNumbers : List Nat
  intervalActive : Bool
  listeners : List Nat
deriving DecidableEq

namespace LocalRecordingState

/-- `constructor(instanceId)` with the field initializers. -/
def init (instanceId : String) : LocalRecordingState :=
  ⟨instanceId, false, 0, [], false, []⟩

/-- `getId()`. -/
def getId (s : LocalRecordingState) : String := s.instanceId

/-- `getState()`: snapshot with a defensive copy of the buffer and the two
formatted renderings. -/
def getState (s : LocalRecordingState) : LocalStateUpdate :=
  ⟨s.isRecording, s.elapsedSeconds, s.randomNumbers,
    formatDuration s.elapsedSeconds, formatRandomNumbers s.randomNumbers⟩

/-- `notifyListeners()`: invoke every listener once, in order, with a fresh
`getState()` snapshot. -/
def notifyLog (s : LocalRecordingState) : List (Nat × LocalStateUpdate) :=
  s.listeners.map fun l => (l, s.getState)

/-- `startRecording()`: no-op when already recording; otherwise reset the
counter and buffer, schedule the interval, and notify immediately. -/
def startRecording (s : LocalRecordingState) :
    LocalRecordingState × List (Nat × LocalStateUpdate) :=
  if s.isRecording then (s, [])
  else
    let s' : LocalRecordingState :=
      { s with isRecording := true, elapsedSeconds := 0, randomNumbers := [],
               intervalActive := true }
    (s', s'.notifyLog)

/-- One firing of the interval callback, carrying the value
`Math.floor(Math.random() * 100) : Fin 100`: increment the counter, append
the sample, notify. The browser only fires the callback while the interval
is scheduled, so an unscheduled tick does nothing. -/
def tick (s : LocalRecordingState) (r : Fin 100) :
    LocalRecordingState × List (Nat × LocalStateUpdate) :=
  if s.intervalActive then
    let s' : LocalRecordingState :=
      { s with elapsedSeconds := s.elapsedSeconds + 1,
               randomNumbers := s.randomNumbers ++ [r.val] }
    (s', s'.notifyLog)
  else (s, [])

/-- `stopRecording()`: unconditionally reset the flag, counter and buffer,
cancel any scheduled interval, and notify. -/
def stopRecording (s : LocalRecordingState) :
    LocalRecordingState × List (Nat × LocalStateUpdate) :=
  let s' : LocalRecordingState :=
    { s with isRecording := false, elapsedSeconds := 0, randomNumbers := [],
             intervalActive := false }
  (s', s'.notifyLog)

/-- `subscribe(listener)`: `Set.add`, no notification. -/
def subscribe (s : LocalRecordingState) (l : Nat) :
    LocalRecordingState × List (Nat × LocalStateUpdate) :=
  ({ s with listeners := if l ∈ s.listeners then s.listeners else s.listeners ++ [l] }, [])

/-- The unsubscribe closure returned by `subscribe`: `Set.delete`. -/
def unsubscribe (s : LocalRecordingState) (l : Nat) :
    LocalRecordingState × List (Nat × LocalStateUpdate) :=
  ({ s with listeners := s.listeners.erase l }, [])

/-- `destroy()`: run `stopRecording()` (which notifies the listeners
subscribed at that moment), then clear the listener set. -/
def destroy (s : LocalRecordingState) :
    LocalRecordingState × List (Nat × LocalStateUpdate) :=
  let r := s.stopRecording
  ({ r.1 with listeners := [] }, r.2)

end LocalRecordingState

/-- The events that can reach a Session Timer: its public methods, interval
firings, and teardown. -/
inductive TimerEvent where
  | start
  | stop
  | tick (r : Fin 100)
  | subscribe (l : Nat)
  | unsubscribe (l : Nat)
  | teardown
deriving DecidableEq

/-- One Session Timer event: resulting state plus listener invocations. -/
def timerStep (s : LocalRecordingState) :
    TimerEvent → LocalRecordingState × List (Nat × LocalStateUpdate)
  | .start => s.startRecording
  | .stop => s.stopRecording
  | .tick r => s.tick r
  | .subscribe l => s.subscribe l
  | .unsubscribe l => s.unsubscribe l
  | .teardown => s.destroy

/-- The Session Timer state reached from construction by a sequence of
events. -/
def runTimer (iid : String) (evs : List TimerEvent) : LocalRecordingState :=
  evs.foldl (fun s e => (timerStep s e).1) (LocalRecordingState.init iid)

/-- The state after a run of consecutive interval firings. -/
def runTicks (s : LocalRecordingState) (rs : List (Fin 100)) : LocalRecordingState :=
  rs.foldl (fun s r => (s.tick r).1) s

/-- The two-digit rendering the spec describes: the decimal digits, with a
single leading zero exactly when the value has one digit. -/
def twoDigitDecimal (n : Nat) : String :=
  if n < 10 then "0" ++ natToString n else natToString n

section Helpers

lemma comp_fst_pair {α β : Type} (c : β) : (Prod.fst ∘ fun l : α => (l, c)) = id := by
  funext l
  rfl

/-- A property preserved by every step holds after any foldl run. -/
lemma foldl_preserve {α σ : Type} {step : σ → α → σ} {P : σ → Prop}
    (hstep : ∀ s a, P s → P (step s a)) :
    ∀ (l : List α) (s : σ), P s → P (l.foldl step s)
  | [], _, hs => hs
  | a :: l, s, hs => foldl_preserve hstep l (step s a) (hstep s a hs)

lemma natToStringAux_length_pos (fuel n : Nat) (h : 0 < fuel) :
    0 < (natToStringAux fuel n).length := by
  cases fuel with
  | zero => omega
  | succ f =>
      rw [natToStringAux]
      split
      · simp [String.length_mk]
      · rw [String.length_append]
        simp [String.length_mk]

lemma natToString_length_of_lt (n : Nat) (h : n < 10) :
    (natToString n).length = 1 := by
  interval_cases n <;> rfl

lemma natToString_length_of_ge (n : Nat) (h : 10 ≤ n) :
    2 ≤ (natToString n).length := by
  rw [natToString, natToStringAux, if_neg (by omega)]
  rw [String.length_append]
  have := natToStringAux_length_pos n (n / 10) (by omega)
  simp [String.length_mk]
  omega

lemma emptyStr_append (s : String) : String.mk [] ++ s = s := by
  cases s
  rfl

lemma padStart_two_natToString (n : Nat) :
    padStart (natToString n) 2 '0' = twoDigitDecimal n := by
  by_cases h : n < 10
  · have hl : (natToString n).length = 1 := natToString_length_of_lt n h
    rw [padStart, hl, twoDigitDecimal, if_pos h]
    rfl
  · have hl : 2 ≤ (natToString n).length := natToString_length_of_ge n (by omega)
    rw [padStart, twoDigitDecimal, if_neg h, Nat.sub_eq_zero_of_le hl,
      List.replicate_zero, emptyStr_append]

lemma formatDuration_characterization (e : Nat) :
    formatDuration e =
      twoDigitDecimal (e / 60) ++ ":" ++ twoDigitDecimal (e % 60) := by
  rw [formatDuration, padStart_two_natToString, padStart_two_natToString]

/-- Invariant maintained by every Gate operation: the phase is `"recording"`
exactly when an owner is present, only the phases `"idle"` and
`"recording"` occur, and the listener list is duplicate-free. -/
def GateInv (g : GlobalRecordingState) : Prop :=
  (g.currentState = .recording ↔ g.recordingInstance ≠ none) ∧
  (g.currentState = .idle ∨ g.currentState = .recording) ∧
  g.listeners.Nodup

lemma gateInv_init : GateInv GlobalRecordingState.init := by
  refine ⟨by simp [GlobalRecordingState.init], ?_, ?_⟩
  · left
    rfl
  · simp [GlobalRecordingState.init]

lemma gateInv_step (g : GlobalRecordingState) (e : GateEvent) (h : GateInv g) :
    GateInv (gateStep g e).1 := by
  obtain ⟨h1, h2, h3⟩ := h
  cases e with
  | tryAcquire t =>
      cases hr : g.recordingInstance with
      | none =>
          simp [gateStep, GlobalRecordingState.tryStartRecording, hr, GateInv, h3]
      | some x =>
          have hid : (gateStep g (.tryAcquire t)).1 = g := by
            simp [gateStep, GlobalRecordingState.tryStartRecording, hr]
          rw [hid]
          exact ⟨h1, h2, h3⟩
  | release t =>
      by_cases hr : g.recordingInstance = some t
      · simp [gateStep, GlobalRecordingState.stopRecording, hr, GateInv, h3]
      · have hid : (gateStep g (.release t)).1 = g := by
          simp [gateStep, GlobalRecordingState.stopRecording, hr]
        rw [hid]
        exact ⟨h1, h2, h3⟩
  | subscribe l =>
      by_cases hl : l ∈ g.listeners
      · have hid : (gateStep g (.subscribe l)).1 = g := by
          simp [gateStep, GlobalRecordingState.subscribe, hl]
        rw [hid]
        exact ⟨h1, h2, h3⟩
      · refine ⟨h1, h2, ?_⟩
        simp only [gateStep, GlobalRecordingState.subscribe, if_neg hl]
        exact h3.append (List.nodup_singleton l) (by simp [List.disjoint_singleton, hl])
  | unsubscribe l =>
      exact ⟨h1, h2, h3.erase l⟩
  | shutdown =>
      exact gateInv_init

lemma gateInv_run (evs : List GateEvent) : GateInv (runGate evs) :=
  foldl_preserve gateInv_step evs GlobalRecordingState.init gateInv_init

lemma acquireSeq_held :
    ∀ (ts : List Nat) (g : GlobalRecordingState) (x : Nat),
      g.recordingInstance = some x →
      acquireSeq g ts = List.replicate ts.length false
  | [], _, _, _ => rfl
  | t :: ts, g, x, h => by
      rw [acquireSeq]
      have hcall : g.tryStartRecording t = (false, g, []) := by
        rw [GlobalRecordingState.tryStartRecording, h]
      rw [hcall, List.length_cons, List.replicate_succ]
      exact congrArg (false :: ·) (acquireSeq_held ts g x h)

lemma acquireSeq_count_le_one (g : GlobalRecordingState) (ts : List Nat) :
    (acquireSeq g ts).count true ≤ 1 := by
  cases ts with
  | nil => simp [acquireSeq]
  | cons t ts =>
      cases hr : g.recordingInstance with
      | some x =>
          rw [acquireSeq_held (t :: ts) g x hr]
          simp [List.count_replicate]
      | none =>
          have hrest : acquireSeq (g.tryStartRecording t).2.1 ts =
              List.replicate ts.length false :=
            acquireSeq_held ts _ t (by rw [GlobalRecordingState.tryStartRecording, hr])
          have hfst : (g.tryStartRecording t).1 = true := by
            rw [GlobalRecordingState.tryStartRecording, hr]
          rw [acquireSeq, hrest, hfst]
          simp [List.count_replicate, List.count_cons]

/-- Invariant maintained by every Session Timer event: the reset values
hold whenever the timer is inactive, and the interval is scheduled exactly
while recording. -/
def TimerInv (s : LocalRecordingState) : Prop :=
  (s.isRecording = false → s.elapsedSeconds = 0 ∧ s.randomNumbers = []) ∧
  s.intervalActive = s.isRecording

lemma timerInv_init (iid : String) : TimerInv (LocalRecordingState.init iid) :=
  ⟨fun _ => ⟨rfl, rfl⟩, rfl⟩

lemma timerInv_step (s : LocalRecordingState) (e : TimerEvent) (h : TimerInv s) :
    TimerInv (timerStep s e).1 := by
  obtain ⟨h1, h2⟩ := h
  cases e with
  | start =>
      by_cases hrec : s.isRecording = true
      · have hid : (timerStep s .start).1 = s := by
          simp [timerStep, LocalRecordingState.startRecording, hrec]
        rw [hid]
        exact ⟨h1, h2⟩
      · simp only [Bool.not_eq_true] at hrec
        have hst : (timerStep s .start).1 =
            { s with isRecording := true, elapsedSeconds := 0,
                     randomNumbers := [], intervalActive := true } := by
          simp [timerStep, LocalRecordingState.startRecording, hrec]
        rw [hst]
        exact ⟨fun hf => by simp at hf, rfl⟩
  | stop => exact ⟨fun _ => ⟨rfl, rfl⟩, rfl⟩
  | tick r =>
      by_cases hia : s.intervalActive = true
      · have hrec : s.isRecording = true := by
          rw [← h2]
          exact hia
        have hst : (timerStep s (.tick r)).1 =
            { s with elapsedSeconds := s.elapsedSeconds + 1,
                     randomNumbers := s.randomNumbers ++ [r.val] } := by
          simp [timerStep, LocalRecordingState.tick, hia]
        rw [hst]
        refine ⟨?_, h2⟩
        intro hf
        have hc : s.isRecording = false := hf
        rw [hrec] at hc
        cases hc
      · simp only [Bool.not_eq_true] at hia
        have hid : (timerStep s (.tick r)).1 = s := by
          simp [timerStep, LocalRecordingState.tick, hia]
        rw [hid]
        exact ⟨h1, h2⟩
  | subscribe l => exact ⟨h1, h2⟩
  | unsubscribe l => exact ⟨h1, h2⟩
  | teardown => exact ⟨fun _ => ⟨rfl, rfl⟩, rfl⟩

lemma timerInv_run (iid : String) (evs : List TimerEvent) :
    TimerInv (runTimer iid evs) :=
  foldl_preserve timerInv_step evs (LocalRecordingState.init iid) (timerInv_init iid)

lemma runTicks_props :
    ∀ (rs : List (Fin 100)) (s : LocalRecordingState), s.intervalActive = true →
      (runTicks s rs).elapsedSeconds = s.elapsedSeconds + rs.length ∧
      (runTicks s rs).randomNumbers = s.randomNumbers ++ rs.map Fin.val ∧
      (runTicks s rs).intervalActive = true
  | [], s, h => by
      refine ⟨?_, ?_, h⟩ <;> simp [runTicks]
  | r :: rs, s, h => by
      have hst : (s.tick r).1 =
          { s with elapsedSeconds := s.elapsedSeconds + 1,
                   randomNumbers := s.randomNumbers ++ [r.val] } := by
        simp [LocalRecordingState.tick, h]
      have hia : (s.tick r).1.intervalActive = true := by
        rw [hst]
        exact h
      have ih := runTicks_props rs (s.tick r).1 hia
      have hcons : runTicks s (r :: rs) = runTicks (s.tick r).1 rs := rfl
      rw [hcons]
      refine ⟨?_, ?_, ih.2.2⟩
      · rw [ih.1, hst]
        simp only [List.length_cons]
        omega
      · rw [ih.2.1, hst]
        simp

end Helpers

/-- C1: `tryStartRecording(t)` returns true, sets the holder to `t` and the
phase to `"recording"`, and performs one notification pass over the
subscribers (leaving the subscriber list unchanged), exactly when the
holder was `null` before the call; when a holder exists — even `t`
itself — it returns false and changes nothing and notifies nobody; hence
in any sequence of consecutive `tryStartRecording` calls at most one
returns true. -/
theorem tryAcquire_mutual_exclusion :
    (∀ (g : GlobalRecordingState) (inst : Nat),
      ((g.tryStartRecording inst).1 = true ↔ g.recordingInstance = none) ∧
      (g.recordingInstance = none →
        (g.tryStartRecording inst).2.1.recordingInstance = some inst ∧
        (g.tryStartRecording inst).2.1.currentState = .recording ∧
        (g.tryStartRecording inst).2.1.listeners = g.listeners ∧
        ((g.tryStartRecording inst).2.2).map Prod.fst = g.listeners) ∧
      (g.recordingInstance ≠ none →
        (g.tryStartRecording inst).1 = false ∧
        (g.tryStartRecording inst).2.1 = g ∧
        (g.tryStartRecording inst).2.2 = [])) ∧
    (∀ (g : GlobalRecordingState) (ts : List Nat),
      (acquireSeq g ts).count true ≤ 1) := by
  refine ⟨?_, acquireSeq_count_le_one⟩
  intro g inst
  refine ⟨?_, ?_, ?_⟩
  · cases hr : g.recordingInstance <;>
      simp [GlobalRecordingState.tryStartRecording, hr]
  · intro h
    simp [GlobalRecordingState.tryStartRecording, h,
      GlobalRecordingState.notifyLog, List.map_map, comp_fst_pair]
  · intro h
    cases hr : g.recordingInstance with
    | none => exact absurd hr h
    | some x => simp [GlobalRecordingState.tryStartRecording, hr]

/-- Witness for C1 at concrete inputs: acquiring on a fresh Gate, and
re-acquiring with the very token that already holds the Gate. -/
theorem tryAcquire_mutual_exclusion_witness :
    ((GlobalRecordingState.init.tryStartRecording 7).2.1.recordingInstance = some 7 ∧
      (GlobalRecordingState.init.tryStartRecording 7).2.1.currentState = .recording ∧
      (GlobalRecordingState.init.tryStartRecording 7).2.1.listeners =
        GlobalRecordingState.init.listeners ∧
      ((GlobalRecordingState.init.tryStartRecording 7).2.2).map Prod.fst =
        GlobalRecordingState.init.listeners) ∧
    (((⟨some 0, .recording, [4]⟩ : GlobalRecordingState).tryStartRecording 0).1 = false ∧
      ((⟨some 0, .recording, [4]⟩ : GlobalRecordingState).tryStartRecording 0).2.1 =
        ⟨some 0, .recording, [4]⟩ ∧
      ((⟨some 0, .recording, [4]⟩ : GlobalRecordingState).tryStartRecording 0).2.2 = []) :=
  ⟨(tryAcquire_mutual_exclusion.1 GlobalRecordingState.init 7).2.1 rfl,
    (tryAcquire_mutual_exclusion.1 ⟨some 0, .recording, [4]⟩ 0).2.2 (by decide)⟩

/-- C2: `stopRecording(t)` clears the holder, returns the phase to
`"idle"` and performs one notification pass exactly when `t` is the
current holder; with any other token (or no holder at all) it is a
complete no-op: no error, no notification, state identical. -/
theorem release_only_by_holder :
    ∀ (g : GlobalRecordingState) (inst : Nat),
      (g.recordingInstance = some inst →
        (g.stopRecording inst).1.recordingInstance = none ∧
        (g.stopRecording inst).1.currentState = .idle ∧
        (g.stopRecording inst).1.listeners = g.listeners ∧
        ((g.stopRecording inst).2).map Prod.fst = g.listeners) ∧
      (g.recordingInstance ≠ some inst →
        (g.stopRecording inst).1 = g ∧ (g.stopRecording inst).2 = []) := by
  intro g inst
  constructor
  · intro h
    simp [GlobalRecordingState.stopRecording, h,
      GlobalRecordingState.notifyLog, List.map_map, comp_fst_pair]
  · intro h
    simp [GlobalRecordingState.stopRecording, h]

/-- Witness for C2 at concrete inputs: the holder releasing, and a foreign
token (as well as a release on an idle Gate) being ignored. -/
theorem release_only_by_holder_witness :
    (((⟨some 1, .recording, [9]⟩ : GlobalRecordingState).stopRecording 1).1.recordingInstance = none ∧
      ((⟨some 1, .recording, [9]⟩ : GlobalRecordingState).stopRecording 1).1.currentState = .idle ∧
      ((⟨some 1, .recording, [9]⟩ : GlobalRecordingState).stopRecording 1).1.listeners = [9] ∧
      (((⟨some 1, .recording, [9]⟩ : GlobalRecordingState).stopRecording 1).2).map Prod.fst = [9]) ∧
    (((⟨some 1, .recording, [9]⟩ : GlobalRecordingState).stopRecording 2).1 =
        ⟨some 1, .recording, [9]⟩ ∧
      ((⟨some 1, .recording, [9]⟩ : GlobalRecordingState).stopRecording 2).2 = []) ∧
    ((GlobalRecordingState.init.stopRecording 2).1 = GlobalRecordingState.init ∧
      (GlobalRecordingState.init.stopRecording 2).2 = []) :=
  ⟨(release_only_by_holder ⟨some 1, .recording, [9]⟩ 1).1 rfl,
    (release_only_by_holder ⟨some 1, .recording, [9]⟩ 2).2 (by decide),
    (release_only_by_holder GlobalRecordingState.init 2).2 (by decide)⟩

/-- C3: in every state reachable by Gate calls, at most one holder exists
and the phase is `"recording"` exactly when a holder is present; the
fresh Gate is idle with no holder, and a successful release leaves the
Gate idle with no holder. -/
theorem gate_state_invariants :
    (∀ evs : List GateEvent,
      ((runGate evs).currentState = .recording ↔
        (runGate evs).recordingInstance ≠ none) ∧
      ∀ t₁ t₂ : Nat, (runGate evs).recordingInstance = some t₁ →
        (runGate evs).recordingInstance = some t₂ → t₁ = t₂) ∧
    (GlobalRecordingState.init.isRecording = false ∧
      GlobalRecordingState.init.recordingInstance = none) ∧
    ∀ (g : GlobalRecordingState) (t : Nat), g.recordingInstance = some t →
      (g.stopRecording t).1.isRecording = false ∧
      (g.stopRecording t).1.recordingInstance = none := by
  refine ⟨?_, ⟨rfl, rfl⟩, ?_⟩
  · intro evs
    refine ⟨(gateInv_run evs).1, ?_⟩
    intro t₁ t₂ h₁ h₂
    rw [h₁] at h₂
    exact Option.some_injective _ h₂
  · intro g t h
    simp [GlobalRecordingState.stopRecording, h, GlobalRecordingState.isRecording]

/-- Witness for C3 at concrete inputs: the holder after one acquisition,
and a successful release from a held Gate. -/
theorem gate_state_invariants_witness :
    (3 : Nat) = 3 ∧
    (((⟨some 3, .recording, []⟩ : GlobalRecordingState).stopRecording 3).1.isRecording = false ∧
      ((⟨some 3, .recording, []⟩ : GlobalRecordingState).stopRecording 3).1.recordingInstance = none) :=
  ⟨(gate_state_invariants.1 [GateEvent.tryAcquire 3]).2 3 3 (by decide) (by decide),
    gate_state_invariants.2.2 ⟨some 3, .recording, []⟩ 3 (by decide)⟩

/-- C7: subscribing to the Gate triggers no immediate notification; the
listener set of every reachable Gate is duplicate-free, and a subscribed
callback is invoked exactly once by a successful acquisition and exactly
once by the successful release that follows (2 invocations total); the
unsubscribe closure removes the callback, calling it a second time is a
no-op, and once the callback is absent no Gate operation invokes it. -/
theorem gate_subscriber_protocol :
    (∀ (g : GlobalRecordingState) (l : Nat), (g.subscribe l).2 = []) ∧
    (∀ evs : List GateEvent, (runGate evs).listeners.Nodup) ∧
    (∀ (g : GlobalRecordingState) (t l : Nat),
      g.listeners.Nodup → l ∈ g.listeners → g.recordingInstance = none →
      (((g.tryStartRecording t).2.2).map Prod.fst).count l = 1 ∧
      ((((g.tryStartRecording t).2.1.stopRecording t).2).map Prod.fst).count l = 1 ∧
      ((((g.tryStartRecording t).2.2 ++
          ((g.tryStartRecording t).2.1.stopRecording t).2)).map Prod.fst).count l = 2) ∧
    (∀ (g : GlobalRecordingState) (l : Nat), g.listeners.Nodup →
      l ∉ ((g.unsubscribe l).1).listeners ∧
      (g.unsubscribe l).1.unsubscribe l = g.unsubscribe l) ∧
    (∀ (g : GlobalRecordingState) (l : Nat) (e : GateEvent), l ∉ g.listeners →
      (((gateStep g e).2).map Prod.fst).count l = 0) := by
  refine ⟨fun g l => rfl, fun evs => (gateInv_run evs).2.2, ?_, ?_, ?_⟩
  · intro g t l hnd hmem hr
    have hlog1 : ((g.tryStartRecording t).2.2).map Prod.fst = g.listeners := by
      simp [GlobalRecordingState.tryStartRecording, hr,
        GlobalRecordingState.notifyLog, List.map_map, comp_fst_pair]
    have hstate : (g.tryStartRecording t).2.1 =
        ⟨some t, .recording, g.listeners⟩ := by
      simp [GlobalRecordingState.tryStartRecording, hr]
    have hlog2 : ((((g.tryStartRecording t).2.1).stopRecording t).2).map Prod.fst =
        g.listeners := by
      rw [hstate]
      simp [GlobalRecordingState.stopRecording, GlobalRecordingState.notifyLog,
        List.map_map, comp_fst_pair]
    refine ⟨?_, ?_, ?_⟩
    · rw [hlog1]
      exact List.count_eq_one_of_mem hnd hmem
    · rw [hlog2]
      exact List.count_eq_one_of_mem hnd hmem
    · rw [List.map_append, List.count_append, hlog1, hlog2,
        List.count_eq_one_of_mem hnd hmem]
  · intro g l hnd
    constructor
    · simpa [GlobalRecordingState.unsubscribe] using hnd.not_mem_erase
    · have h2 : (g.listeners.erase l).erase l = g.listeners.erase l :=
        List.erase_of_not_mem hnd.not_mem_erase
      simp [GlobalRecordingState.unsubscribe, h2]
  · intro g l e hl
    cases e with
    | tryAcquire t =>
        cases hr : g.recordingInstance with
        | none =>
            have hlog : ((gateStep g (.tryAcquire t)).2).map Prod.fst = g.listeners := by
              simp [gateStep, GlobalRecordingState.tryStartRecording, hr,
                GlobalRecordingState.notifyLog, List.map_map, comp_fst_pair]
            rw [hlog]
            exact List.count_eq_zero_of_not_mem hl
        | some x => simp [gateStep, GlobalRecordingState.tryStartRecording, hr]
    | release t =>
        by_cases hr : g.recordingInstance = some t
        · have hlog : ((gateStep g (.release t)).2).map Prod.fst = g.listeners := by
            simp [gateStep, GlobalRecordingState.stopRecording, hr,
              GlobalRecordingState.notifyLog, List.map_map, comp_fst_pair]
          rw [hlog]
          exact List.count_eq_zero_of_not_mem hl
        · simp [gateStep, GlobalRecordingState.stopRecording, hr]
    | subscribe x => simp [gateStep, GlobalRecordingState.subscribe]
    | unsubscribe x => simp [gateStep, GlobalRecordingState.unsubscribe]
    | shutdown => simp [gateStep, GlobalRecordingState.destroy]

/-- Witness for C7 at concrete inputs: a Gate with the single subscriber 5,
acquired and released with token 1, then unsubscribed. -/
theorem gate_subscriber_protocol_witness :
    ((((⟨none, .idle, [5]⟩ : GlobalRecordingState).tryStartRecording 1).2.2).map
      Prod.fst).count 5 = 1 ∧
    (((((⟨none, .idle, [5]⟩ : GlobalRecordingState).tryStartRecording 1).2.1.stopRecording 1).2).map
      Prod.fst).count 5 = 1 ∧
    ((((⟨none, .idle, [5]⟩ : GlobalRecordingState).tryStartRecording 1).2.2 ++
        (((⟨none, .idle, [5]⟩ : GlobalRecordingState).tryStartRecording 1).2.1.stopRecording 1).2).map
      Prod.fst).count 5 = 2 ∧
    5 ∉ (((⟨none, .idle, [5]⟩ : GlobalRecordingState).unsubscribe 5).1).listeners ∧
    ((⟨none, .idle, [5]⟩ : GlobalRecordingState).unsubscribe 5).1.unsubscribe 5 =
      (⟨none, .idle, [5]⟩ : GlobalRecordingState).unsubscribe 5 ∧
    (((gateStep ⟨none, .idle, []⟩ (.tryAcquire 1)).2).map Prod.fst).count 5 = 0 := by
  have h3 := gate_subscriber_protocol.2.2.1 ⟨none, .idle, [5]⟩ 1 5
    (by decide) (by decide) rfl
  have h4 := gate_subscriber_protocol.2.2.2.1 ⟨none, .idle, [5]⟩ 5 (by decide)
  have h5 := gate_subscriber_protocol.2.2.2.2 ⟨none, .idle, []⟩ 5
    (.tryAcquire 1) (by decide)
  exact ⟨h3.1, h3.2.1, h3.2.2, h4.1, h4.2, h5⟩

/-- C9: although the `RecordingState` union declares `"stopping"` and
`"error"`, no sequence of Gate calls ever reaches a state whose phase is
either — `getCurrentState()` only ever returns `"idle"` or
`"recording"`. -/
theorem gate_phase_never_stopping_error :
    ∀ evs : List GateEvent,
      (runGate evs).getCurrentState ≠ .stopping ∧
      (runGate evs).getCurrentState ≠ .error := by
  intro evs
  rcases (gateInv_run evs).2.1 with h | h <;>
    exact ⟨by simp [GlobalRecordingState.getCurrentState, h],
      by simp [GlobalRecordingState.getCurrentState, h]⟩

/-- C4: in every Session Timer state reachable by any event sequence,
whenever the timer is not recording the elapsed counter is 0 and the
sample buffer is empty; in particular `startRecording`, any run of
ticks, then `stopRecording` ends with counter 0 and an empty buffer. -/
theorem timer_inactive_reset :
    (∀ (iid : String) (evs : List TimerEvent),
      (runTimer iid evs).isRecording = false →
      (runTimer iid evs).elapsedSeconds = 0 ∧
      (runTimer iid evs).randomNumbers = []) ∧
    (∀ (s : LocalRecordingState) (rs : List (Fin 100)),
      ((runTicks (s.startRecording).1 rs).stopRecording).1.elapsedSeconds = 0 ∧
      ((runTicks (s.startRecording).1 rs).stopRecording).1.randomNumbers = []) := by
  refine ⟨?_, fun s rs => ⟨rfl, rfl⟩⟩
  intro iid evs h
  exact (timerInv_run iid evs).1 h

/-- Witness for C4 at a concrete event sequence: start, two ticks, stop. -/
theorem timer_inactive_reset_witness :
    (runTimer "m" [TimerEvent.start, TimerEvent.tick 3, TimerEvent.tick 9,
      TimerEvent.stop]).elapsedSeconds = 0 ∧
    (runTimer "m" [TimerEvent.start, TimerEvent.tick 3, TimerEvent.tick 9,
      TimerEvent.stop]).randomNumbers = [] :=
  timer_inactive_reset.1 "m" [TimerEvent.start, TimerEvent.tick 3,
    TimerEvent.tick 9, TimerEvent.stop] rfl

/-- C5: while the interval is scheduled, each tick increments the elapsed
counter by exactly 1, appends exactly one sample below 100 to the buffer,
and notifies subscribers with the updated snapshot; after a start and `n`
ticks the snapshot shows `elapsedSeconds = n`, a buffer of length `n`, and
every buffered sample in `[0, 100)`. -/
theorem timer_tick_behavior :
    (∀ (s : LocalRecordingState) (r : Fin 100), s.intervalActive = true →
      (s.tick r).1.elapsedSeconds = s.elapsedSeconds + 1 ∧
      (s.tick r).1.randomNumbers = s.randomNumbers ++ [r.val] ∧
      r.val < 100 ∧
      (s.tick r).2 = ((s.tick r).1).notifyLog) ∧
    (∀ (s : LocalRecordingState) (rs : List (Fin 100)), s.isRecording = false →
      ((runTicks (s.startRecording).1 rs).getState).elapsedSeconds = rs.length ∧
      ((runTicks (s.startRecording).1 rs).getState).randomNumbers.length = rs.length ∧
      ∀ x ∈ ((runTicks (s.startRecording).1 rs).getState).randomNumbers, x < 100) := by
  constructor
  · intro s r h
    refine ⟨?_, ?_, r.isLt, ?_⟩ <;> simp [LocalRecordingState.tick, h]
  · intro s rs h
    have hstart : (s.startRecording).1 =
        { s with isRecording := true, elapsedSeconds := 0,
                 randomNumbers := [], intervalActive := true } := by
      simp [LocalRecordingState.startRecording, h]
    have hia : (s.startRecording).1.intervalActive = true := by
      rw [hstart]
    have hp := runTicks_props rs (s.startRecording).1 hia
    have hbuf : (runTicks (s.startRecording).1 rs).randomNumbers =
        rs.map Fin.val := by
      rw [hp.2.1, hstart]
      simp
    refine ⟨?_, ?_, ?_⟩
    · show (runTicks (s.startRecording).1 rs).elapsedSeconds = rs.length
      rw [hp.1, hstart]
      simp
    · show (runTicks (s.startRecording).1 rs).randomNumbers.length = rs.length
      rw [hbuf]
      simp
    · intro x hx
      have hx' : x ∈ (runTicks (s.startRecording).1 rs).randomNumbers := hx
      rw [hbuf] at hx'
      obtain ⟨a, _, rfl⟩ := List.mem_map.mp hx'
      exact a.isLt

/-- Witness for C5 at concrete inputs: one tick on a freshly started timer,
and a start followed by the tick sequence with samples 2 and 7. -/
theorem timer_tick_behavior_witness :
    ((((LocalRecordingState.init "v").startRecording).1.tick 2).1.elapsedSeconds =
        ((LocalRecordingState.init "v").startRecording).1.elapsedSeconds + 1 ∧
      (((LocalRecordingState.init "v").startRecording).1.tick 2).1.randomNumbers =
        ((LocalRecordingState.init "v").startRecording).1.randomNumbers ++
          [(2 : Fin 100).val] ∧
      (2 : Fin 100).val < 100 ∧
      (((LocalRecordingState.init "v").startRecording).1.tick 2).2 =
        ((((LocalRecordingState.init "v").startRecording).1.tick 2).1).notifyLog) ∧
    (((runTicks ((LocalRecordingState.init "v").startRecording).1
        [2, 7]).getState).elapsedSeconds = ([2, 7] : List (Fin 100)).length ∧
      ((runTicks ((LocalRecordingState.init "v").startRecording).1
        [2, 7]).getState).randomNumbers.length = ([2, 7] : List (Fin 100)).length ∧
      ∀ x ∈ ((runTicks ((LocalRecordingState.init "v").startRecording).1
        [2, 7]).getState).randomNumbers, x < 100) :=
  ⟨timer_tick_behavior.1 ((LocalRecordingState.init "v").startRecording).1 2 rfl,
    timer_tick_behavior.2 (LocalRecordingState.init "v") [2, 7] rfl⟩

/-- C6: the snapshot renders the duration as minutes (integer division by
60) and seconds (remainder), each zero-padded to two digits with no hour
rollover, and renders the buffer by giving each integer a `"..."` suffix
and joining with single spaces (empty string for an empty buffer);
concretely 0 ↦ "00:00", 59 ↦ "00:59", 60 ↦ "01:00", 125 ↦ "02:05". -/
theorem snapshot_formatting :
    (∀ st : LocalRecordingState,
      (st.getState).formattedDuration =
        twoDigitDecimal (st.elapsedSeconds / 60) ++ ":" ++
          twoDigitDecimal (st.elapsedSeconds % 60) ∧
      (st.getState).formattedRandoms = formatRandomNumbers st.randomNumbers) ∧
    (∀ (n : Nat) (ns : List Nat),
      formatRandomNumbers (n :: ns) =
        natToString n ++ "..." ++
          (if ns.isEmpty then "" else " " ++ formatRandomNumbers ns)) ∧
    formatDuration 0 = "00:00" ∧ formatDuration 59 = "00:59" ∧
    formatDuration 60 = "01:00" ∧ formatDuration 125 = "02:05" ∧
    formatRandomNumbers [] = "" ∧ formatRandomNumbers [7, 42] = "7... 42..." := by
  refine ⟨?_, ?_, by decide, by decide, by decide, by decide, rfl, by decide⟩
  · intro st
    exact ⟨formatDuration_characterization st.elapsedSeconds, rfl⟩
  · intro n ns
    cases ns with
    | nil => simp [formatRandomNumbers, joinSep, String.append_empty]
    | cons m ms =>
        simp [formatRandomNumbers, joinSep, String.append_assoc]
        rw [← String.append_assoc "..." " ", show ("..." ++ " " : String) = "... " by decide]

/-- C8: `startRecording` on an already-active timer is a complete no-op
(same state, no notification, no new interval), while `stopRecording` on
an inactive timer still resets the state and performs one notification
pass over the subscribers. -/
theorem start_noop_stop_notifies :
    (∀ s : LocalRecordingState, s.isRecording = true → s.startRecording = (s, [])) ∧
    (∀ s : LocalRecordingState, s.isRecording = false →
      (s.stopRecording).1 =
        { s with isRecording := false, elapsedSeconds := 0,
                 randomNumbers := [], intervalActive := false } ∧
      ((s.stopRecording).2).map Prod.fst = s.listeners) := by
  constructor
  · intro s h
    simp [LocalRecordingState.startRecording, h]
  · intro s _
    refine ⟨rfl, ?_⟩
    simp [LocalRecordingState.stopRecording, LocalRecordingState.notifyLog,
      List.map_map, comp_fst_pair]

/-- Witness for C8 at concrete inputs: a started timer re-started, and a
fresh (inactive) timer with one subscriber stopped. -/
theorem start_noop_stop_notifies_witness :
    (((LocalRecordingState.init "m").startRecording).1.startRecording =
      (((LocalRecordingState.init "m").startRecording).1, []) ∧
    ((⟨"m", false, 0, [], false, [8]⟩ : LocalRecordingState).stopRecording).1 =
      ⟨"m", false, 0, [], false, [8]⟩ ∧
    (((⟨"m", false, 0, [], false, [8]⟩ : LocalRecordingState).stopRecording).2).map
      Prod.fst = [8]) := by
  have h1 := start_noop_stop_notifies.1
    ((LocalRecordingState.init "m").startRecording).1 rfl
  have h2 := start_noop_stop_notifies.2 ⟨"m", false, 0, [], false, [8]⟩ rfl
  exact ⟨h1, h2.1, h2.2⟩

/-- C10: `destroy()` on any Session Timer first runs the stop sequence —
cancelling the interval and resetting the counter and buffer — delivering
exactly one notification with the inactive snapshot to each listener
subscribed at the moment of the call, and only then clears the listener
set. -/
theorem destroy_notifies_then_clears :
    ∀ s : LocalRecordingState,
      (s.destroy).1 =
        { s with isRecording := false, elapsedSeconds := 0,
                 randomNumbers := [], intervalActive := false, listeners := [] } ∧
      (s.destroy).2 =
        s.listeners.map (fun l => (l, ⟨false, 0, [], "00:00", ""⟩)) := by
  intro s
  refine ⟨rfl, ?_⟩
  have hsnap : ((s.stopRecording).1).getState =
      (⟨false, 0, [], "00:00", ""⟩ : LocalStateUpdate) := by
    show (⟨false, 0, [], formatDuration 0, formatRandomNumbers []⟩ : LocalStateUpdate) =
      ⟨false, 0, [], "00:00", ""⟩
    rw [show formatDuration 0 = "00:00" by decide,
      show formatRandomNumbers [] = "" from rfl]
  calc (s.destroy).2
      = s.listeners.map (fun l => (l, ((s.stopRecording).1).getState)) := rfl
    _ = s.listeners.map (fun l => (l, ⟨false, 0, [], "00:00", ""⟩)) := by
        rw [hsnap]

end ObsidianOperator
